import Mathlib

/-!
# Verification of the synology-typescript-api connection core

This file gives a shallow embedding, in Lean 4, of the session-aware request
proxy and the QuickConnect resolution algorithm of the repository
`seansfkelley/synology-typescript-api`, and proves the specified properties
about the embedded definitions.

Modelling conventions:

* Promises are embedded by explicit outcome values: a fulfilled promise of `U`
  is `Except JsError U` with `.ok`, a rejected one is `.error e` where
  `JsError` records exactly the discriminators the code inspects
  (`error.response.status === 400`, `error.message === 'Network Error'`, the
  timeout-message pattern).
* Network I/O suspension points are embedded by environment parameters that
  supply the outcome each remote call would have produced, and by explicit
  event traces recording which network calls were issued.
* JavaScript `number | string | undefined` fields that the code coerces with
  unary `+` are embedded as `NumField`; the coercion of a string is modelled
  by `String.toInt?` (whose corner cases are never load-bearing below).
* Class fields of `ApiClient` become an explicit `ClientState` record that the
  embedded methods thread through.
-/

namespace Synology

/-! ## `series` from `src/quickconnect/promises.ts` -/
/-- Error outcome of `series`: the immediate rejection for an empty input list
with no default, or the rejection of the last attempt after all failed. -/
inductive SeriesError (E : Type) where
  | noValues : SeriesError E
  | attemptFailed (e : E) : SeriesError E
  deriving Repr, DecidableEq

/-- The inner `iterate` of `series`: `value` is the element just shifted off
the mutable copy, `rest` what remains of it.  On failure it recurses while
elements remain and otherwise re-raises the last error. -/
def seriesIterate {T U E : Type} (makePromise : T → Except E U) (value : T)
    (rest : List T) : Except (SeriesError E) U :=
  match makePromise value with
  | .ok u => .ok u
  | .error e =>
    match rest with
    | [] => .error (.attemptFailed e)
    | value' :: rest' => seriesIterate makePromise value' rest'

/-- `series(values, makePromise, defaultValue?)` from
`src/quickconnect/promises.ts`: rejects immediately on an empty list without a
default, resolves with the default on an empty list with one, and otherwise
iterates over the elements in order. -/
def series {T U E : Type} (values : List T) (makePromise : T → Except E U)
    (defaultValue : Option U) : Except (SeriesError E) U :=
  match values with
  | [] =>
    match defaultValue with
    | none => .error .noValues
    | some d => .ok d
  | value :: rest => seriesIterate makePromise value rest

/-- Instrumentation of `seriesIterate`: the list of elements to which
`makePromise` is actually applied, in application order. -/
def seriesIterateAttempts {T U E : Type} (makePromise : T → Except E U) (value : T) :
    List T → List T
  | [] => [value]
  | value' :: rest' =>
    match makePromise value with
    | .ok _ => [value]
    | .error _ => value :: seriesIterateAttempts makePromise value' rest'

/-- Instrumentation of `series`: the elements attempted, in order. -/
def seriesAttempts {T U E : Type} (values : List T) (makePromise : T → Except E U) :
    List T :=
  match values with
  | [] => []
  | value :: rest => seriesIterateAttempts makePromise value rest

/-! ## Errors and responses from `src/client.ts` and `src/rest/shared.ts` -/
/-- The discriminators of a rejected promise's error value that
`handleRejection` inspects (`error.response.status === 400`,
`error.message === 'Network Error'`, `TIMEOUT_MESSAGE_REGEX.test(error.message)`). -/
structure JsError where
  status400 : Bool
  networkErrorMessage : Bool
  timeoutMessage : Bool
  deriving Repr, DecidableEq

/-- The `ConnectionFailure` variants of `src/client.ts` (the attached raw
`error` payload is not inspected anywhere and is dropped). -/
inductive ConnectionFailure where
  | missingConfig
  | probableWrongProtocol
  | probableWrongUrlOrNoConnectionOrCertError
  | timeout
  | unknown
  deriving Repr, DecidableEq

/-- `handleRejection` from `src/client.ts`: classify a rejection into a
`ConnectionFailure`, testing the discriminators in source order. -/
def handleRejection (error : JsError) : ConnectionFailure :=
  if error.status400 then .probableWrongProtocol
  else if error.networkErrorMessage then .probableWrongUrlOrNoConnectionOrCertError
  else if error.timeoutMessage then .timeout
  else .unknown

/-- `SynologyResponse<S>` from `src/rest/shared.ts`: a discriminated
success/failure union; on failure only the numeric `error.code` is retained
(the optional `errors` array is never inspected by the client core). -/
inductive SynologyResponse (S : Type) where
  | success (data : S)
  | failure (code : Int)
  deriving Repr, DecidableEq

/-- `NO_PERMISSIONS_ERROR_CODE` from `src/client.ts`. -/
def NO_PERMISSIONS_ERROR_CODE : Int := 105

/-- `SESSION_TIMEOUT_ERROR_CODE` from `src/client.ts`. -/
def SESSION_TIMEOUT_ERROR_CODE : Int := 106

/-- The data of a successful login as seen by the proxy:
`AuthLoginResponse & ExtraLoginInfo` (only `sid` is read by `proxy`). -/
structure LoginData where
  sid : String
  isLegacyLogin : Bool
  deriving Repr, DecidableEq

/-! ## The request proxy (`proxy` / `wrappedFunction` in `src/client.ts`)

One iteration of `wrappedFunction` suspends twice: awaiting `maybeLogin()` and
awaiting `fn(...)`.  An `Attempt` environment record supplies, for one such
iteration, the value the awaited `maybeLogin()` future settles to, the result
of `settingsStillValid()` at each of the two re-check points, and the outcome
of the wrapped call `fn` (which may reject).  `maybeLogin` never rejects (it
ends in `.catch(handleRejection)`), so its observed value is either a
`ConnectionFailure` or a `SynologyResponse`. -/
/-- Environment for one iteration of `wrappedFunction`. -/
structure Attempt (U : Type) where
  login : ConnectionFailure ⊕ SynologyResponse LoginData
  validAfterLogin : Bool
  call : LoginData → Except JsError (SynologyResponse U)
  validAfterCall : Bool

/-- What one iteration of `wrappedFunction` resolves to, when it does not
re-invoke itself. -/
inductive ProxyOutcome (U : Type) where
  | conn (f : ConnectionFailure)
  | resp (r : SynologyResponse U)
  deriving Repr, DecidableEq

/-- How one iteration of `wrappedFunction` ends: delivering an outcome,
re-invoking via `unconditionallyRetry` (stale generation; retry flag resets to
its default `true`), or re-invoking via the retry branch of `retryIfAllowed`
(which clears `this.sidPromise` and passes `shouldRetryRoutineFailures =
false`). -/
inductive AttemptStep (U : Type) where
  | done (o : ProxyOutcome U)
  | retryGeneration
  | retrySession
  deriving Repr, DecidableEq

/-- One iteration of `wrappedFunction` from `src/client.ts`, translated
branch-for-branch.  `shouldRetry` is `shouldRetryRoutineFailures`. -/
def attemptStep {U : Type} (a : Attempt U) (shouldRetry : Bool) : AttemptStep U :=
  if a.validAfterLogin then
    match a.login with
    | .inl failure =>
      -- `isConnectionFailure(response)`: return it unchanged.
      .done (.conn failure)
    | .inr (.success data) =>
      match a.call data with
      | .error e =>
        -- `fn` rejected: the rejection skips the inner callback and is
        -- caught by the outermost `.catch(handleRejection)`.
        .done (.conn (handleRejection e))
      | .ok callResponse =>
        if a.validAfterCall then
          match callResponse with
          | .success u => .done (.resp (.success u))
          | .failure code =>
            -- `retryIfAllowed(response)` on the wrapped call's failure.
            if shouldRetry &&
                (code == SESSION_TIMEOUT_ERROR_CODE || code == NO_PERMISSIONS_ERROR_CODE) then
              .retrySession
            else
              .done (.resp (.failure code))
        else
          .retryGeneration
    | .inr (.failure code) =>
      -- `retryIfAllowed(response)` on the login's remote failure.
      if shouldRetry &&
          (code == SESSION_TIMEOUT_ERROR_CODE || code == NO_PERMISSIONS_ERROR_CODE) then
        .retrySession
      else
        .done (.resp (.failure code))
  else
    .retryGeneration

/-- A whole invocation of `wrappedFunction`: consume one `Attempt` environment
per iteration, following the re-invocation directives.  Returns the final
outcome (`none` if the supplied environment is too short to settle) and the
trace of iterations, each recorded with the retry flag it ran under. -/
def runProxy {U : Type} :
    List (Attempt U) → Bool → Option (ProxyOutcome U) × List (Bool × AttemptStep U)
  | [], _ => (none, [])
  | a :: rest, shouldRetry =>
    match attemptStep a shouldRetry with
    | .done o => (some o, [(shouldRetry, .done o)])
    | .retryGeneration =>
      ((runProxy rest true).1, (shouldRetry, .retryGeneration) :: (runProxy rest true).2)
    | .retrySession =>
      ((runProxy rest false).1, (shouldRetry, .retrySession) :: (runProxy rest false).2)

/-- Whether a trace entry is a session-recovery re-invocation. -/
def isSessionRetry {U : Type} (entry : Bool × AttemptStep U) : Bool :=
  match entry.2 with
  | .retrySession => true
  | _ => false

/-- Whether a trace entry is a stale-generation re-invocation. -/
def isGenerationRetry {U : Type} (entry : Bool × AttemptStep U) : Bool :=
  match entry.2 with
  | .retryGeneration => true
  | _ => false

/-- Number of session-recovery re-invocations in a trace. -/
def countSessionRetries {U : Type} (trace : List (Bool × AttemptStep U)) : Nat :=
  (trace.filter isSessionRetry).length

/-- Number of stale-generation re-invocations in a trace. -/
def countGenerationRetries {U : Type} (trace : List (Bool × AttemptStep U)) : Nat :=
  (trace.filter isGenerationRetry).length

/-! ## `ApiClient` state (`src/client.ts`)

The class fields `settings`, `sidPromise`, `settingsVersion` and
`onSettingsChangeListeners` become a `ClientState` record.  The cached
`sidPromise` future is identified by the index of the login network sequence
that created it; an environment function supplies what each such future
settles to.  Each embedded method returns its result, the successor state, and
the list of observable events it produced. -/
/-- `ApiClientSettings` from `src/client.ts`: all four fields optional. -/
structure ApiClientSettings where
  baseUrl : Option String
  account : Option String
  passwd : Option String
  session : Option String
  deriving Repr, DecidableEq

/-- The change test of `updateSettings`:
`SETTING_NAME_KEYS.some(k => settings[k] !== this.settings[k])`, with
`SETTING_NAME_KEYS = ['baseUrl', 'account', 'passwd', 'session']`. -/
def settingsDiffer (settings current : ApiClientSettings) : Bool :=
  settings.baseUrl != current.baseUrl ||
  settings.account != current.account ||
  settings.passwd != current.passwd ||
  settings.session != current.session

/-- `isFullyConfigured` from `src/client.ts`: every settings field is non-null
and non-empty. -/
def isFullyConfigured (s : ApiClientSettings) : Bool :=
  [s.baseUrl, s.account, s.passwd, s.session].all fun v =>
    match v with
    | none => false
    | some str => 0 < str.length

/-- Observable events of the embedded `ApiClient` methods. -/
inductive ClientEvent where
  | loginNetworkCall (futureId : Nat)
  /-- An invocation of the best-effort `maybeLogout` (whether or not it ends
  up issuing a logout network call). -/
  | logoutAttempt
  | logoutNetworkCall (sid : String)
  /-- Invocation of a registered settings-change listener.  No embedded method
  ever emits this event: the source never calls the listeners. -/
  | notifyListener (listenerId : Nat)
  deriving Repr, DecidableEq

/-- The mutable fields of `ApiClient`, plus the mint counter for login-future
identities (`loginCalls` also counts the login network sequences issued). -/
structure ClientState where
  settings : ApiClientSettings
  sidPromise : Option Nat
  settingsVersion : Nat
  onSettingsChangeListeners : List Nat
  loginCalls : Nat
  deriving Repr, DecidableEq

/-- What `maybeLogin` hands back to its caller: a resolved `missing-config`
failure, or (a `.catch`-wrapped view of) the cached login future. -/
inductive MaybeLoginResult where
  | missingConfig
  | futureRef (futureId : Nat)
  deriving Repr, DecidableEq

/-- `maybeLogin` from `src/client.ts`: return the cached future if present;
otherwise fail fast on incomplete settings; otherwise start the
capability-query + login network sequence, cache its future, and return it. -/
def maybeLogin (s : ClientState) : MaybeLoginResult × ClientState × List ClientEvent :=
  match s.sidPromise with
  | some futureId => (.futureRef futureId, s, [])
  | none =>
    if !isFullyConfigured s.settings then
      (.missingConfig, s, [])
    else
      let futureId := s.loginCalls
      (.futureRef futureId,
        { s with sidPromise := some futureId, loginCalls := s.loginCalls + 1 },
        [.loginNetworkCall futureId])

/-- What `maybeLogout` resolves to. -/
inductive LogoutOutcome where
  | notLoggedIn
  | connFailure (f : ConnectionFailure)
  | response (r : SynologyResponse Unit)
  deriving Repr, DecidableEq

/-- `maybeLogout` from `src/client.ts`.  `resolve` supplies what the stashed
login future settles to; `logoutResult` what the `Auth.Logout` network call
would return if issued.  The stashed `sidPromise` is cleared unconditionally
before anything else. -/
def maybeLogout (resolve : Nat → Except JsError (SynologyResponse LoginData))
    (logoutResult : Except JsError (SynologyResponse Unit))
    (s : ClientState) : LogoutOutcome × ClientState × List ClientEvent :=
  let stashedSidPromise := s.sidPromise
  let s' := { s with sidPromise := none }
  match stashedSidPromise with
  | none => (.notLoggedIn, s', [.logoutAttempt])
  | some futureId =>
    if !isFullyConfigured s'.settings then
      (.connFailure .missingConfig, s', [.logoutAttempt])
    else
      match resolve futureId with
      | .error e => (.connFailure (handleRejection e), s', [.logoutAttempt])
      | .ok (.success data) =>
        -- The prior login succeeded: issue the logout network call.
        match logoutResult with
        | .ok r => (.response r, s', [.logoutAttempt, .logoutNetworkCall data.sid])
        | .error e =>
          (.connFailure (handleRejection e), s', [.logoutAttempt, .logoutNetworkCall data.sid])
      | .ok (.failure code) =>
        -- The prior login failed: return that failure response as-is.
        (.response (.failure code), s', [.logoutAttempt])

/-- `updateSettings` from `src/client.ts`: on any field-wise difference, bump
`settingsVersion`, replace the settings, and fire-and-forget `maybeLogout`;
otherwise do nothing and return `false`.  (The source's defensive
`settings != null` / `this.settings == null` guards cannot fire in this typed
embedding, where both records always exist.) -/
def updateSettings (resolve : Nat → Except JsError (SynologyResponse LoginData))
    (logoutResult : Except JsError (SynologyResponse Unit))
    (s : ClientState) (settings : ApiClientSettings) :
    Bool × ClientState × List ClientEvent :=
  if settingsDiffer settings s.settings then
    let s1 := { s with settingsVersion := s.settingsVersion + 1, settings := settings }
    (true, (maybeLogout resolve logoutResult s1).2.1, (maybeLogout resolve logoutResult s1).2.2)
  else
    (false, s, [])

/-- `onSettingsChange` from `src/client.ts`: push the listener onto the
listener list (the returned unsubscriber filters it back out). -/
def onSettingsChange (s : ClientState) (listenerId : Nat) : ClientState :=
  { s with onSettingsChangeListeners := s.onSettingsChangeListeners ++ [listenerId] }

/-- The unsubscriber closure returned by `onSettingsChange`:
filter the listener out of the list. -/
def unsubscribeSettingsChange (s : ClientState) (listenerId : Nat) : ClientState :=
  { s with
    onSettingsChangeListeners := s.onSettingsChangeListeners.filter (· ≠ listenerId) }

/-- Iterate `maybeLogin` a number of times from a starting state, collecting
every call's result and the concatenated events. -/
def iterateMaybeLogin (s : ClientState) :
    Nat → List MaybeLoginResult × ClientState × List ClientEvent
  | 0 => ([], s, [])
  | n + 1 =>
    ((maybeLogin s).1 :: (iterateMaybeLogin (maybeLogin s).2.1 n).1,
     (iterateMaybeLogin (maybeLogin s).2.1 n).2.1,
     (maybeLogin s).2.2 ++ (iterateMaybeLogin (maybeLogin s).2.1 n).2.2)

/-! ## QuickConnect data model (`src/quickconnect/api.ts`)

JavaScript truthiness on the optional string fields is `strTruthy` (both
`undefined` and `''` are falsy).  `number | string | undefined` fields that
the code feeds to unary `+` are `NumField`; `coerceNum` models the coercion
(`none` is `NaN`), with `String.toInt?` standing in for JS string-to-number
conversion.

The classifier predicates `isPrivate`, `isLoopback`, `isIpv4`, `isIpv6` from
`src/quickconnect/ips.ts` are regex-driven; none of the properties proved
below depends on their semantics, so the definitions here take them as
parameters and the theorems hold for every classifier. -/
/-- Truthiness of an optional string field. -/
def strTruthy : Option String → Bool
  | none => false
  | some s => s ≠ ""

/-- A JavaScript `number | string | undefined` field. -/
inductive NumField where
  | jsUndefined
  | num (n : Int)
  | str (s : String)
  deriving Repr, DecidableEq

/-- Unary `+` coercion of a `NumField`; `none` models `NaN`. -/
def coerceNum : NumField → Option Int
  | .jsUndefined => none
  | .num n => some n
  | .str s => s.toInt?

/-- Truthiness of a `NumField` (`0` is falsy, every non-empty string truthy). -/
def numFieldTruthy : NumField → Bool
  | .jsUndefined => false
  | .num n => n ≠ 0
  | .str s => s ≠ ""

/-- One entry of an interface's `ipv6` array (only the fields the candidate
generator reads). -/
structure Ipv6Interface where
  scope : Option String
  address : Option String
  deriving Repr, DecidableEq

/-- One entry of `server.interface` (only the fields the candidate generator
reads). -/
structure NetworkInterface where
  ip : Option String
  ipv6 : Option (List Ipv6Interface)
  deriving Repr, DecidableEq

/-- `server.external`. -/
structure ServerExternal where
  ip : Option String
  ipv6 : Option String
  deriving Repr, DecidableEq

/-- The `server` part of `QuickConnectServerInfo` (fields the code reads;
`fqdn` is non-optional in the source type). -/
structure QcServer where
  ddns : Option String
  serverID : Option String
  interface : Option (List NetworkInterface)
  fqdn : String
  external : Option ServerExternal
  deriving Repr, DecidableEq

/-- The `service` part of `QuickConnectServerInfo` (fields the code reads). -/
structure QcService where
  ext_port : NumField
  relay_ip : Option String
  port : NumField
  relay_port : Option Int
  deriving Repr, DecidableEq

/-- The `env` part of `QuickConnectServerInfo`. -/
structure QcEnv where
  control_host : Option String
  relay_region : Option String
  deriving Repr, DecidableEq

/-- `QuickConnectServerInfo` from `src/quickconnect/api.ts` (fields the
resolution algorithm reads). -/
structure QuickConnectServerInfo where
  server : QcServer
  service : Option QcService
  errno : Int
  env : QcEnv
  deriving Repr, DecidableEq

/-- `info.service!.port`: the source uses a non-null assertion; on an absent
`service` it would throw, which the embedding renders as `jsUndefined` (yielding no
direct candidates either way). -/
def servicePort (info : QuickConnectServerInfo) : NumField :=
  match info.service with
  | some svc => svc.port
  | none => .jsUndefined

/-- `info.service!.ext_port`, with the same convention as `servicePort`. -/
def serviceExtPort (info : QuickConnectServerInfo) : NumField :=
  match info.service with
  | some svc => svc.ext_port
  | none => .jsUndefined

/-- `isValidServerInfo` from `src/quickconnect/connections.ts`, truthiness
check by truthiness check.  `info.server` and `info.env` are non-optional
objects and hence always truthy; `!!info.server.interface` is satisfied by an
empty array (arrays are truthy), so only presence is tested for it. -/
def isValidServerInfo (info : QuickConnectServerInfo) : Bool :=
  info.errno == 0 &&
  info.server.interface.isSome &&
  (match info.server.external with
   | some ext => strTruthy ext.ip
   | none => false) &&
  strTruthy info.server.serverID &&
  info.service.isSome &&
  numFieldTruthy (servicePort info) &&
  numFieldTruthy (serviceExtPort info) &&
  strTruthy info.env.control_host &&
  strTruthy info.env.relay_region

/-- `hasTunnel` from `src/quickconnect/connections.ts`:
`!!info.service && !!info.service.relay_ip && !!info.service.relay_port`. -/
def hasTunnel (info : QuickConnectServerInfo) : Bool :=
  match info.service with
  | none => false
  | some svc =>
    strTruthy svc.relay_ip &&
    (match svc.relay_port with
     | none => false
     | some p => p ≠ 0)

/-- The probe protocol chosen up front by the caller. -/
inductive Protocol where
  | http
  | https
  deriving Repr, DecidableEq

/-- `PROTOCOL_PORTS` from `src/quickconnect/connections.ts`. -/
def PROTOCOL_PORTS : Protocol → Int
  | .http => 80
  | .https => 443

/-- `QuickConnectTunnelRequest` from `src/quickconnect/connections.ts`. -/
inductive QuickConnectTunnelRequest where
  | exclude
  | include
  | require
  deriving Repr, DecidableEq

/-- `ConnectionType` from `src/quickconnect/connections.ts`. -/
inductive ConnectionType where
  | LAN_IPV4
  | LAN_IPV6
  | FQDN
  | DDNS
  | WAN_IPV6
  | WAN_IPV4
  | TUN
  deriving Repr, DecidableEq

/-- `PREFERRED_CONNECTION_ORDERING` from `src/quickconnect/connections.ts`. -/
def PREFERRED_CONNECTION_ORDERING : List ConnectionType :=
  [.LAN_IPV4, .LAN_IPV6, .FQDN, .DDNS, .WAN_IPV6, .WAN_IPV4, .TUN]

/-- `ConnectionInfo` from `src/quickconnect/connections.ts`. -/
structure ConnectionInfo where
  hostname : String
  port : Int
  deriving Repr, DecidableEq

/-- The `Record<ConnectionType, ConnectionInfo[]>` accumulator of
`generateConnectionCandidates`. -/
def Candidates : Type := ConnectionType → List ConnectionInfo

/-- The accumulator initialized with an empty array per connection type. -/
def emptyCandidates : Candidates := fun _ => []

/-- `candidates[type].push({hostname, port})`. -/
def pushCandidate (c : Candidates) (t : ConnectionType) (x : ConnectionInfo) : Candidates :=
  fun t' => if t' = t then c t' ++ [x] else c t'

/-- `shouldCheckExtPort` from `src/quickconnect/connections.ts`. -/
def shouldCheckExtPort (extPort : NumField) (port : Int) : Bool :=
  extPort ≠ .jsUndefined && extPort ≠ .num 0 && extPort ≠ .str "0" &&
    (coerceNum extPort).isSome && coerceNum extPort ≠ some port

/-- `addWithPort` from `generateConnectionCandidates`. -/
def addWithPort (port : Int) (c : Candidates) (t : ConnectionType) (hostname : String) :
    Candidates :=
  pushCandidate c t ⟨hostname, port⟩

/-- `addWithExtPort` from `generateConnectionCandidates` (pushes only when the
computed `extPort` is truthy). -/
def addWithExtPort (extPort : Option Int) (c : Candidates) (t : ConnectionType)
    (hostname : String) : Candidates :=
  match extPort with
  | some e => if e ≠ 0 then pushCandidate c t ⟨hostname, e⟩ else c
  | none => c

/-- The body of the `iface.ipv6.forEach` loop. -/
def addIpv6Candidates (port : Int) (extPort : Option Int) (c : Candidates)
    (v6 : Ipv6Interface) : Candidates :=
  match v6.address with
  | some addr =>
    if addr ≠ "" then
      let c1 := addWithPort port c
        (if v6.scope = some "link" then .LAN_IPV6 else .WAN_IPV6) addr
      addWithExtPort extPort c1 .WAN_IPV6 addr
    else c
  | none => c

/-- The body of the `info.server.interface.forEach` loop. -/
def addInterfaceCandidates (isPrivate isLoopback : String → Bool) (port : Int)
    (extPort : Option Int) (c : Candidates) (iface : NetworkInterface) : Candidates :=
  let c1 :=
    match iface.ipv6 with
    | some v6s => v6s.foldl (addIpv6Candidates port extPort) c
    | none => c
  match iface.ip with
  | some ip =>
    if ip ≠ "" && !isLoopback ip then
      let c2 := addWithPort port c1 (if isPrivate ip then .LAN_IPV4 else .WAN_IPV4) ip
      addWithExtPort extPort c2 .WAN_IPV4 ip
    else c1
  | none => c1

/-- The `info.server.ddns` block of `generateConnectionCandidates`. -/
def addDdnsCandidates (port : Int) (extPort : Option Int) (info : QuickConnectServerInfo)
    (c : Candidates) : Candidates :=
  match info.server.ddns with
  | some ddns =>
    if ddns ≠ "" && ddns ≠ "NULL" then
      addWithExtPort extPort (addWithPort port c .DDNS ddns) .DDNS ddns
    else c
  | none => c

/-- The `info.server.fqdn` block of `generateConnectionCandidates`. -/
def addFqdnCandidates (port : Int) (extPort : Option Int) (info : QuickConnectServerInfo)
    (c : Candidates) : Candidates :=
  if info.server.fqdn ≠ "" && info.server.fqdn ≠ "NULL" then
    addWithExtPort extPort (addWithPort port c .FQDN info.server.fqdn) .FQDN info.server.fqdn
  else c

/-- The `info.server.external.ip` block of `generateConnectionCandidates`
(the deliberate LAN_IPV4 quirk). -/
def addExternalIpCandidates (port : Int) (extPort : Option Int)
    (info : QuickConnectServerInfo) (c : Candidates) : Candidates :=
  match info.server.external with
  | some ext =>
    match ext.ip with
    | some ip =>
      if ip ≠ "" then
        addWithExtPort extPort (addWithPort port c .LAN_IPV4 ip) .LAN_IPV4 ip
      else c
    | none => c
  | none => c

/-- The whole non-tunnel block of `generateConnectionCandidates`: interfaces,
then DDNS, then FQDN, then the externally-reported IP. -/
def addDirectCandidates (isPrivate isLoopback : String → Bool) (port : Int)
    (extPort : Option Int) (info : QuickConnectServerInfo) (c : Candidates) : Candidates :=
  addExternalIpCandidates port extPort info
    (addFqdnCandidates port extPort info
      (addDdnsCandidates port extPort info
        (((info.server.interface).getD []).foldl
          (addInterfaceCandidates isPrivate isLoopback port extPort) c)))

/-- The IPv6-bracket formatting applied to every candidate at the end of
`generateConnectionCandidates`. -/
def formatHostname (isIpv4 isIpv6 : String → Bool) (x : ConnectionInfo) : ConnectionInfo :=
  { hostname := if isIpv6 x.hostname && !isIpv4 x.hostname
      then "[" ++ x.hostname ++ "]" else x.hostname,
    port := x.port }

/-- The final `PREFERRED_CONNECTION_ORDERING.forEach` of
`generateConnectionCandidates`: re-assign each group to its mapped image. -/
def formatCandidates (isIpv4 isIpv6 : String → Bool) (c : Candidates) : Candidates :=
  PREFERRED_CONNECTION_ORDERING.foldl
    (fun acc t => fun t' => if t' = t then (acc t').map (formatHostname isIpv4 isIpv6) else acc t')
    c

/-- The guarded non-tunnel portion of `generateConnectionCandidates`:
`!isNaN(port) && (tunnel === 'include' || tunnel === 'exclude')` around the
direct-candidate blocks, starting from the empty accumulator. -/
def directCandidatesStage (isPrivate isLoopback : String → Bool)
    (info : QuickConnectServerInfo) (tunnel : QuickConnectTunnelRequest) : Candidates :=
  match coerceNum (servicePort info) with
  | some port =>
    if tunnel = .include ∨ tunnel = .exclude then
      addDirectCandidates isPrivate isLoopback port
        (if shouldCheckExtPort (serviceExtPort info) port
          then coerceNum (serviceExtPort info) else none)
        info emptyCandidates
    else emptyCandidates
  | none => emptyCandidates

/-- The tunnel (TUN) block of `generateConnectionCandidates`. -/
def tunnelCandidatesStage (quickConnectId : String) (defaultPort : Int)
    (info : QuickConnectServerInfo) (tunnel : QuickConnectTunnelRequest)
    (c : Candidates) : Candidates :=
  if hasTunnel info && (tunnel = .require ∨ tunnel = .include) then
    pushCandidate c .TUN
      ⟨quickConnectId ++ "." ++ (info.env.relay_region).getD "" ++ ".quickconnect.to",
        defaultPort⟩
  else c

/-- `generateConnectionCandidates` from `src/quickconnect/connections.ts`:
the direct blocks, then the tunnel block, then the IPv6-bracket formatting. -/
def generateConnectionCandidates (isPrivate isLoopback isIpv4 isIpv6 : String → Bool)
    (quickConnectId : String) (defaultPort : Int) (info : QuickConnectServerInfo)
    (tunnel : QuickConnectTunnelRequest) : Candidates :=
  formatCandidates isIpv4 isIpv6
    (tunnelCandidatesStage quickConnectId defaultPort info tunnel
      (directCandidatesStage isPrivate isLoopback info tunnel))

/-- The probe sequence built in `tryResolveFromControlHost`:
`[].concat(...PREFERRED_CONNECTION_ORDERING.map(t => candidates[t]))`. -/
def formattedConnections (c : Candidates) : List ConnectionInfo :=
  (PREFERRED_CONNECTION_ORDERING.map fun t => c t).flatten

/-! ## The liveness probe and `tryResolveFromControlHost`
(`src/quickconnect/connections.ts`)

The network is embedded by environments: `tunnelResult` is what the
`QuickConnect.requestTunnel` promise settles to, and `pingPongEnv` what the
ping-pong probe of each candidate settles to.  The `md5` digest function comes
from the external `md5` npm package and is taken as a parameter. -/
/-- The ping-pong response fields the resolver reads.  On an unsuccessful
response the `ezid` field is absent. -/
structure PingPongResponse where
  success : Bool
  ezid : Option String
  deriving Repr, DecidableEq

/-- `QuickConnectErrorResponse` (the `'errinfo' in result` discriminated
error payload). -/
structure QuickConnectErrorResponse where
  errinfo : String
  errno : Int
  deriving Repr, DecidableEq

/-- Why a single candidate probe rejects. -/
inductive ProbeFailure where
  | transport (e : JsError)
  | unsuccessfulResponse
  | incorrectEzid
  deriving Repr, DecidableEq

/-- The probe of one candidate in `tryResolveFromControlHost`: ping-pong the
candidate, then demand `success` and an `ezid` equal to the server-id hash. -/
def probeConnection (pingPongEnv : ConnectionInfo → Except JsError PingPongResponse)
    (serverIdHash : String) (connection : ConnectionInfo) :
    Except ProbeFailure ConnectionInfo :=
  match pingPongEnv connection with
  | .error e => .error (.transport e)
  | .ok result =>
    if !result.success then .error .unsuccessfulResponse
    else if result.ezid ≠ some serverIdHash then .error .incorrectEzid
    else .ok connection

/-- Why `tryResolveFromControlHost` rejects as a whole. -/
inductive ResolveFailure where
  | transport (e : JsError)
  | errorPayload (errinfo : String)
  | invalidServerInfo
  | allProbesFailed (e : SeriesError ProbeFailure)
  deriving Repr, DecidableEq

/-- The valid-response arm of `tryResolveFromControlHost`: validate, generate
and order the candidates, hash the server id, and probe via `series`. -/
def resolveWithServerInfo (md5 : String → String)
    (isPrivate isLoopback isIpv4 isIpv6 : String → Bool)
    (pingPongEnv : ConnectionInfo → Except JsError PingPongResponse)
    (quickConnectId : String) (protocol : Protocol) (tunnel : QuickConnectTunnelRequest)
    (info : QuickConnectServerInfo) : Except ResolveFailure ConnectionInfo :=
  if !isValidServerInfo info then .error .invalidServerInfo
  else
    let candidates := generateConnectionCandidates isPrivate isLoopback isIpv4 isIpv6
      quickConnectId (PROTOCOL_PORTS protocol) info tunnel
    let connections := formattedConnections candidates
    let serverIdHash := md5 ((info.server.serverID).getD "")
    match series connections (probeConnection pingPongEnv serverIdHash) none with
    | .ok connection => .ok connection
    | .error e => .error (.allProbesFailed e)

/-- `tryResolveFromControlHost` from `src/quickconnect/connections.ts`:
request the tunnel/server info, reject on an error payload or invalid info,
and otherwise probe the ordered candidates via `series`. -/
def tryResolveFromControlHost (md5 : String → String)
    (isPrivate isLoopback isIpv4 isIpv6 : String → Bool)
    (tunnelResult : Except JsError (QuickConnectErrorResponse ⊕ QuickConnectServerInfo))
    (pingPongEnv : ConnectionInfo → Except JsError PingPongResponse)
    (quickConnectId : String) (protocol : Protocol) (tunnel : QuickConnectTunnelRequest) :
    Except ResolveFailure ConnectionInfo :=
  match tunnelResult with
  | .error e => .error (.transport e)
  | .ok (.inl err) => .error (.errorPayload err.errinfo)
  | .ok (.inr info) =>
    resolveWithServerInfo md5 isPrivate isLoopback isIpv4 isIpv6 pingPongEnv
      quickConnectId protocol tunnel info

/-! ## Spec-side predicates for `series` -/

/-- Spec-side predicate: the attempt at index `i` fulfills with `u` and every
earlier attempt rejects. -/
def firstFulfilled {T U E : Type} (values : List T) (f : T → Except E U)
    (i : Nat) (u : U) : Prop :=
  (∃ v, values[i]? = some v ∧ f v = .ok u) ∧
  ∀ j, j < i → ∀ w, values[j]? = some w → ∃ e, f w = .error e

/-- Spec-side predicate: every element's attempt rejects. -/
def allAttemptsFail {T U E : Type} (values : List T) (f : T → Except E U) : Prop :=
  ∀ v ∈ values, ∃ e, f v = .error e

/-! ## Spec-side predicates for the request proxy -/

/-- Spec-side predicate: the login itself failed as a remote failure with a
recoverable (session-timeout / no-permission) code. -/
def loginRecoverableFailure {U : Type} (a : Attempt U) : Prop :=
  ∃ code, a.login = .inr (.failure code) ∧
    (code = SESSION_TIMEOUT_ERROR_CODE ∨ code = NO_PERMISSIONS_ERROR_CODE)

/-- Spec-side predicate: the wrapped call fulfilled with a remote failure
carrying a recoverable code, under a still-valid generation. -/
def callRecoverableFailure {U : Type} (a : Attempt U) : Prop :=
  ∃ d code, a.login = .inr (.success d) ∧ a.call d = .ok (.failure code) ∧
    a.validAfterCall = true ∧
    (code = SESSION_TIMEOUT_ERROR_CODE ∨ code = NO_PERMISSIONS_ERROR_CODE)

/-- A run in which the first attempt fails with the recoverable code 106 and
the second succeeds: no generation restart happens, and the session-recovery
retry fires exactly once. -/
def retryEnvExample : List (Attempt Unit) :=
  [ { login := .inr (.failure 106), validAfterLogin := true,
      call := fun _ => .ok (.success ()), validAfterCall := true },
    { login := .inr (.success { sid := "sid", isLegacyLogin := false }),
      validAfterLogin := true,
      call := fun _ => .ok (.success ()), validAfterCall := true } ]

/-- An attempt whose post-login generation check fails: the iteration restarts
instead of delivering, as witnessed on a concrete environment. -/
def staleAttemptExample : Attempt Unit :=
  { login := .inr (.success { sid := "sid", isLegacyLogin := false }),
    validAfterLogin := false,
    call := fun _ => .ok (.success ()), validAfterCall := true }

/-! ## Event predicates and concrete example states -/

/-- Whether an event is an invocation of the best-effort logout. -/
def isLogoutAttempt : ClientEvent → Bool
  | .logoutAttempt => true
  | _ => false

/-- A fully-configured client with no cached login. -/
def clientStateExample : ClientState :=
  { settings := { baseUrl := some "http://nas", account := some "admin",
                  passwd := some "pw", session := some "DownloadStation" },
    sidPromise := none, settingsVersion := 0, onSettingsChangeListeners := [],
    loginCalls := 0 }

/-- A resolution environment in which every login future settled
successfully. -/
def resolveExample : Nat → Except JsError (SynologyResponse LoginData) :=
  fun _ => .ok (.success { sid := "sid0", isLegacyLogin := false })

/-- A logout network call that would succeed. -/
def logoutResultExample : Except JsError (SynologyResponse Unit) := .ok (.success ())

/-- New settings differing from `clientStateExample`'s in one field. -/
def changedSettingsExample : ApiClientSettings :=
  { baseUrl := some "https://other", account := some "admin",
    passwd := some "pw", session := some "DownloadStation" }

/-- `clientStateExample` with one registered settings-change listener. -/
def listenerClientExample : ClientState :=
  { clientStateExample with onSettingsChangeListeners := [0] }

/-- A client holding a cached login future while its settings are no longer
fully populated. -/
def unconfiguredLoggedInExample : ClientState :=
  { settings := { baseUrl := none, account := some "admin",
                  passwd := some "pw", session := some "FileStation" },
    sidPromise := some 0, settingsVersion := 2, onSettingsChangeListeners := [],
    loginCalls := 1 }

/-- Number of probe-sequence positions taken by the groups that precede `t`
in `PREFERRED_CONNECTION_ORDERING`. -/
def groupOffset (c : Candidates) : ConnectionType → Nat
  | .LAN_IPV4 => 0
  | .LAN_IPV6 => (c .LAN_IPV4).length
  | .FQDN => (c .LAN_IPV4).length + (c .LAN_IPV6).length
  | .DDNS => (c .LAN_IPV4).length + (c .LAN_IPV6).length + (c .FQDN).length
  | .WAN_IPV6 => (c .LAN_IPV4).length + (c .LAN_IPV6).length + (c .FQDN).length +
      (c .DDNS).length
  | .WAN_IPV4 => (c .LAN_IPV4).length + (c .LAN_IPV6).length + (c .FQDN).length +
      (c .DDNS).length + (c .WAN_IPV6).length
  | .TUN => (c .LAN_IPV4).length + (c .LAN_IPV6).length + (c .FQDN).length +
      (c .DDNS).length + (c .WAN_IPV6).length + (c .WAN_IPV4).length

/-- A server descriptor advertising one private interface address, DDNS and
FQDN names, an external IP, and a relay tunnel. -/
def infoOrderingExample : QuickConnectServerInfo :=
  { server :=
      { ddns := some "example.com",
        serverID := some "SERVERID",
        interface := some [ { ip := some "10.0.0.1", ipv6 := none } ],
        fqdn := "host.example.com",
        external := some { ip := some "9.9.9.9", ipv6 := none } },
    service := some { ext_port := .num 5000, relay_ip := some "relay.host",
                      port := .num 5000, relay_port := some 443 },
    errno := 0,
    env := { control_host := some "ctl", relay_region := some "eu" } }

/-- The candidates generated from `infoOrderingExample` (with a classifier
marking `10.0.0.1` private). -/
def orderingCandidatesExample : Candidates :=
  generateConnectionCandidates (fun str => str == "10.0.0.1") (fun _ => false)
    (fun _ => false) (fun _ => false) "qcid" 443 infoOrderingExample .include

/-- A fixed stand-in for the external `md5` digest function. -/
def md5Example : String → String := fun str => str ++ "#md5"

/-- A probe environment in which every candidate answers successfully with the
correct identity token. -/
def pingEnvExample : ConnectionInfo → Except JsError PingPongResponse :=
  fun _ => .ok { success := true, ezid := some "SERVERID#md5" }

/-! ## Theorems -/

lemma seriesIterate_nil {T U E : Type} (f : T → Except E U) (v : T) :
    seriesIterate f v [] =
      match f v with
      | .ok u => .ok u
      | .error e => .error (.attemptFailed e) := by
  conv_lhs => unfold seriesIterate

lemma seriesIterate_cons {T U E : Type} (f : T → Except E U) (v v' : T) (rest' : List T) :
    seriesIterate f v (v' :: rest') =
      match f v with
      | .ok u => .ok u
      | .error _ => seriesIterate f v' rest' := by
  conv_lhs => unfold seriesIterate

lemma seriesIterateAttempts_nil {T U E : Type} (f : T → Except E U) (v : T) :
    seriesIterateAttempts f v [] = [v] := rfl

lemma seriesIterateAttempts_cons {T U E : Type} (f : T → Except E U) (v v' : T)
    (rest' : List T) :
    seriesIterateAttempts f v (v' :: rest') =
      match f v with
      | .ok _ => [v]
      | .error _ => v :: seriesIterateAttempts f v' rest' := rfl

lemma seriesIterate_ok_iff {T U E : Type} (f : T → Except E U) :
    ∀ (rest : List T) (v : T) (u : U),
      seriesIterate f v rest = .ok u ↔ ∃ i, firstFulfilled (v :: rest) f i u := by
  intro rest
  induction rest with
  | nil =>
    intro v u
    constructor
    · intro h
      cases hfv : f v with
      | ok w =>
        simp only [seriesIterate_nil, hfv] at h
        cases h
        exact ⟨0, ⟨v, by simp, hfv⟩, fun j hj => absurd hj (Nat.not_lt_zero j)⟩
      | error e => simp [seriesIterate_nil, hfv] at h
    · rintro ⟨i, ⟨w, hw, hfw⟩, -⟩
      cases i with
      | zero =>
        simp only [List.getElem?_cons_zero, Option.some.injEq] at hw
        subst hw
        simp [seriesIterate_nil, hfw]
      | succ n => simp at hw
  | cons v' rest' ih =>
    intro v u
    cases hfv : f v with
    | ok w =>
      simp only [seriesIterate_cons, hfv]
      constructor
      · intro h
        cases h
        exact ⟨0, ⟨v, by simp, hfv⟩, fun j hj => absurd hj (Nat.not_lt_zero j)⟩
      · rintro ⟨i, ⟨x, hx, hfx⟩, hearlier⟩
        cases i with
        | zero =>
          simp only [List.getElem?_cons_zero, Option.some.injEq] at hx
          subst hx
          rw [hfv] at hfx
          cases hfx
          rfl
        | succ n =>
          obtain ⟨e, he⟩ := hearlier 0 (Nat.succ_pos n) v (by simp)
          rw [hfv] at he
          cases he
    | error e0 =>
      simp only [seriesIterate_cons, hfv]
      rw [ih v' u]
      constructor
      · rintro ⟨i, ⟨x, hx, hfx⟩, hearlier⟩
        refine ⟨i + 1, ⟨x, by simpa using hx, hfx⟩, ?_⟩
        intro j hj w hw
        cases j with
        | zero =>
          simp only [List.getElem?_cons_zero, Option.some.injEq] at hw
          subst hw
          exact ⟨e0, hfv⟩
        | succ k =>
          exact hearlier k (Nat.lt_of_succ_lt_succ hj) w (by simpa using hw)
      · rintro ⟨i, ⟨x, hx, hfx⟩, hearlier⟩
        cases i with
        | zero =>
          simp only [List.getElem?_cons_zero, Option.some.injEq] at hx
          subst hx
          rw [hfv] at hfx
          cases hfx
        | succ n =>
          refine ⟨n, ⟨x, by simpa using hx, hfx⟩, ?_⟩
          intro j hj w hw
          exact hearlier (j + 1) (Nat.succ_lt_succ hj) w (by simpa using hw)

lemma seriesIterate_error_allFail {T U E : Type} (f : T → Except E U) :
    ∀ (rest : List T) (v : T) (err : SeriesError E),
      seriesIterate f v rest = .error err → allAttemptsFail (v :: rest) f := by
  intro rest
  induction rest with
  | nil =>
    intro v err h w hw
    cases hfv : f v with
    | ok u => simp [seriesIterate_nil, hfv] at h
    | error e =>
      simp only [List.mem_singleton] at hw
      subst hw
      exact ⟨e, hfv⟩
  | cons v' rest' ih =>
    intro v err h w hw
    cases hfv : f v with
    | ok u => simp [seriesIterate_cons, hfv] at h
    | error e =>
      simp only [seriesIterate_cons, hfv] at h
      rcases List.mem_cons.mp hw with rfl | hw'
      · exact ⟨e, hfv⟩
      · exact ih v' err h w hw'

lemma seriesIterate_allFail_error {T U E : Type} (f : T → Except E U) :
    ∀ (rest : List T) (v : T), allAttemptsFail (v :: rest) f →
      ∃ w e, (v :: rest).getLast? = some w ∧ f w = .error e ∧
        seriesIterate f v rest = .error (.attemptFailed e) := by
  intro rest
  induction rest with
  | nil =>
    intro v hall
    obtain ⟨e, he⟩ := hall v (by simp)
    exact ⟨v, e, by simp, he, by simp [seriesIterate_nil, he]⟩
  | cons v' rest' ih =>
    intro v hall
    obtain ⟨e0, he0⟩ := hall v (by simp)
    obtain ⟨w, e, hlast, hfw, hiter⟩ := ih v' (fun x hx => hall x (List.mem_cons_of_mem v hx))
    refine ⟨w, e, ?_, hfw, ?_⟩
    · simpa [List.getLast?] using hlast
    · rw [seriesIterate_cons, he0]
      exact hiter

lemma seriesIterateAttempts_of_firstFulfilled {T U E : Type} (f : T → Except E U) :
    ∀ (rest : List T) (v : T) (i : Nat) (u : U),
      firstFulfilled (v :: rest) f i u →
      seriesIterateAttempts f v rest = (v :: rest).take (i + 1) := by
  intro rest
  induction rest with
  | nil =>
    intro v i u hff
    obtain ⟨⟨x, hx, hfx⟩, -⟩ := hff
    cases i with
    | zero =>
      simp only [List.getElem?_cons_zero, Option.some.injEq] at hx
      subst hx
      simp [seriesIterateAttempts_nil, hfx]
    | succ n => simp at hx
  | cons v' rest' ih =>
    intro v i u hff
    obtain ⟨⟨x, hx, hfx⟩, hearlier⟩ := hff
    cases i with
    | zero =>
      simp only [List.getElem?_cons_zero, Option.some.injEq] at hx
      subst hx
      simp [seriesIterateAttempts_cons, hfx]
    | succ n =>
      obtain ⟨e, he⟩ := hearlier 0 (Nat.succ_pos n) v (by simp)
      have htail : firstFulfilled (v' :: rest') f n u := by
        refine ⟨⟨x, by simpa using hx, hfx⟩, ?_⟩
        intro j hj w hw
        exact hearlier (j + 1) (Nat.succ_lt_succ hj) w (by simpa using hw)
      have hih := ih v' n u htail
      rw [seriesIterateAttempts_cons, he, hih]
      rfl

lemma seriesIterateAttempts_of_allFail {T U E : Type} (f : T → Except E U) :
    ∀ (rest : List T) (v : T), allAttemptsFail (v :: rest) f →
      seriesIterateAttempts f v rest = v :: rest := by
  intro rest
  induction rest with
  | nil =>
    intro v hall
    obtain ⟨e, he⟩ := hall v (by simp)
    simp [seriesIterateAttempts_nil, he]
  | cons v' rest' ih =>
    intro v hall
    obtain ⟨e, he⟩ := hall v (by simp)
    have hih := ih v' (fun x hx => hall x (List.mem_cons_of_mem v hx))
    rw [seriesIterateAttempts_cons, he, hih]

/-- **C6.** `series(values, attempt, default?)`: the empty list rejects
immediately without a default and resolves with the default otherwise (in
either case without invoking `attempt`, which is an arbitrary function here);
a non-empty list resolves with `u` exactly when some element is the first
whose attempt fulfills, with value `u`, the elements being attempted strictly
in list order up to and including that element; and it rejects only once every
element's attempt has rejected, re-raising the last element's error. -/
theorem series_first_success_semantics {T U E : Type} :
    (∀ (f : T → Except E U), series ([] : List T) f none = .error .noValues)
  ∧ (∀ (f : T → Except E U) (dv : U), series ([] : List T) f (some dv) = .ok dv)
  ∧ (∀ (values : List T) (f : T → Except E U) (d : Option U) (u : U), values ≠ [] →
      (series values f d = .ok u ↔ ∃ i, firstFulfilled values f i u))
  ∧ (∀ (values : List T) (f : T → Except E U) (d : Option U) (err : SeriesError E),
      values ≠ [] → series values f d = .error err → allAttemptsFail values f)
  ∧ (∀ (values : List T) (f : T → Except E U) (d : Option U), values ≠ [] →
      allAttemptsFail values f →
      ∃ w e, values.getLast? = some w ∧ f w = .error e ∧
        series values f d = .error (.attemptFailed e))
  ∧ (∀ (values : List T) (f : T → Except E U) (i : Nat) (u : U),
      firstFulfilled values f i u → seriesAttempts values f = values.take (i + 1))
  ∧ (∀ (values : List T) (f : T → Except E U), values ≠ [] →
      allAttemptsFail values f → seriesAttempts values f = values)
  ∧ (∀ (f : T → Except E U), seriesAttempts ([] : List T) f = []) := by
  refine ⟨fun f => rfl, fun f dv => rfl, ?_, ?_, ?_, ?_, ?_, fun f => rfl⟩
  · intro values f d u hne
    cases values with
    | nil => exact absurd rfl hne
    | cons v rest => exact seriesIterate_ok_iff f rest v u
  · intro values f d err hne herr
    cases values with
    | nil => exact absurd rfl hne
    | cons v rest => exact seriesIterate_error_allFail f rest v err herr
  · intro values f d hne hall
    cases values with
    | nil => exact absurd rfl hne
    | cons v rest => exact seriesIterate_allFail_error f rest v hall
  · intro values f i u hff
    cases values with
    | nil =>
      obtain ⟨⟨x, hx, -⟩, -⟩ := hff
      simp at hx
    | cons v rest => exact seriesIterateAttempts_of_firstFulfilled f rest v i u hff
  · intro values f hne hall
    cases values with
    | nil => exact absurd rfl hne
    | cons v rest => exact seriesIterateAttempts_of_allFail f rest v hall

/-- Concrete instance of C6: over `[1, 2]` with an attempt that always
rejects, `series` attempts both elements and re-raises the last error. -/
theorem series_first_success_semantics_witness :
    ∃ w e, ([1, 2] : List Nat).getLast? = some w ∧
      (fun _ : Nat => (.error 0 : Except Nat Nat)) w = .error e ∧
      series [1, 2] (fun _ : Nat => (.error 0 : Except Nat Nat)) none =
        .error (.attemptFailed e) :=
  series_first_success_semantics.2.2.2.2.1 [1, 2]
    (fun _ => .error 0) none (by simp) (fun v _ => ⟨0, rfl⟩)

lemma attemptStep_retrySession_iff {U : Type} (a : Attempt U) (b : Bool) :
    attemptStep a b = .retrySession ↔
      b = true ∧ a.validAfterLogin = true ∧
        (loginRecoverableFailure a ∨ callRecoverableFailure a) := by
  unfold attemptStep loginRecoverableFailure callRecoverableFailure
  cases hv : a.validAfterLogin with
  | false => simp
  | true =>
    simp only [if_true]
    cases hl : a.login with
    | inl f => simp [hl]
    | inr r =>
      cases r with
      | success d =>
        cases hc : a.call d with
        | error e => simp [hl, hc]
        | ok cr =>
          cases hvc : a.validAfterCall with
          | false =>
            cases cr with
            | success u => simp [hl, hc, hvc]
            | failure code => simp [hl, hc, hvc]
          | true =>
            cases cr with
            | success u => simp [hl, hc, hvc]
            | failure code =>
              cases b with
              | false => simp [hl, hc, hvc]
              | true =>
                by_cases hcode :
                    code = SESSION_TIMEOUT_ERROR_CODE ∨ code = NO_PERMISSIONS_ERROR_CODE
                · rcases hcode with hcode | hcode <;> simp [hl, hc, hvc, hcode]
                · push_neg at hcode
                  obtain ⟨h106, h105⟩ := hcode
                  simp [hl, hc, hvc, h106, h105]
      | failure code =>
        cases b with
        | false => simp [hl]
        | true =>
          by_cases hcode :
              code = SESSION_TIMEOUT_ERROR_CODE ∨ code = NO_PERMISSIONS_ERROR_CODE
          · rcases hcode with hcode | hcode <;> simp [hl, hcode]
          · push_neg at hcode
            obtain ⟨h106, h105⟩ := hcode
            simp [hl, h106, h105]

lemma runProxy_session_retry_bound {U : Type} :
    ∀ (env : List (Attempt U)) (b : Bool),
      countSessionRetries (runProxy env b).2 ≤
        countGenerationRetries (runProxy env b).2 + (if b then 1 else 0) := by
  intro env
  induction env with
  | nil =>
    intro b
    simp [runProxy, countSessionRetries, countGenerationRetries]
  | cons a rest ih =>
    intro b
    cases hstep : attemptStep a b with
    | done o =>
      simp [runProxy, hstep, countSessionRetries, countGenerationRetries,
        isSessionRetry, isGenerationRetry]
    | retryGeneration =>
      have h := ih true
      simp only [runProxy, hstep, countSessionRetries, countGenerationRetries,
        List.filter, isSessionRetry, isGenerationRetry, List.length_cons] at h ⊢
      split at h <;> split <;> omega
    | retrySession =>
      have hb : b = true := ((attemptStep_retrySession_iff a b).mp hstep).1
      subst hb
      have h := ih false
      simp only [runProxy, hstep, countSessionRetries, countGenerationRetries,
        List.filter, isSessionRetry, isGenerationRetry, List.length_cons] at h ⊢
      norm_num at h ⊢
      omega

/-- **C1.** Session-recovery retries of the proxy: an iteration re-invokes
via the session-recovery branch exactly when the retry flag is set, the
generation checks passed, and the login or the wrapped call failed remotely
with code 105 or 106 — never for another code, a `ConnectionFailure`, or a
success; the branch re-runs the invocation with the flag cleared (the
`retrySession` trace entry records the branch that clears the cached
`sidPromise`); and in any run the session-recovery retries are bounded by the
stale-generation restarts plus one, so a run without generation restarts
session-retries at most once. -/
theorem proxy_session_recovery_retry_policy {U : Type} (env : List (Attempt U)) (b : Bool) :
    (∀ (a : Attempt U) (flag : Bool), attemptStep a flag = .retrySession ↔
        flag = true ∧ a.validAfterLogin = true ∧
          (loginRecoverableFailure a ∨ callRecoverableFailure a))
  ∧ (∀ (a : Attempt U) (rest : List (Attempt U)), attemptStep a true = .retrySession →
        runProxy (a :: rest) true =
          ((runProxy rest false).1, (true, .retrySession) :: (runProxy rest false).2))
  ∧ countSessionRetries (runProxy env b).2 ≤
      countGenerationRetries (runProxy env b).2 + (if b then 1 else 0)
  ∧ (countGenerationRetries (runProxy env b).2 = 0 →
      countSessionRetries (runProxy env b).2 ≤ 1) := by
  refine ⟨attemptStep_retrySession_iff, ?_, runProxy_session_retry_bound env b, ?_⟩
  · intro a rest hstep
    simp [runProxy, hstep]
  · intro hgen
    have h := runProxy_session_retry_bound env b
    rw [hgen] at h
    cases b with
    | false => simpa using Nat.le_trans h (by norm_num)
    | true => simpa using h

/-- Concrete instance of C1 on `retryEnvExample`. -/
theorem proxy_session_recovery_retry_policy_witness :
    countGenerationRetries (runProxy retryEnvExample true).2 = 0 ∧
    countSessionRetries (runProxy retryEnvExample true).2 ≤ 1 :=
  ⟨rfl, (proxy_session_recovery_retry_policy retryEnvExample true).2.2.2 rfl⟩

/-- **C2.** Stale-generation results are never delivered: an iteration only
delivers an outcome when the post-login generation check passed and — if a
wrapped-call response was obtained — the post-call check passed too; whenever
either check fails on an obtained response, the iteration re-invokes from the
beginning (with the retry allowance back at its default), and the run's final
result is that of the restarted invocation, not the stale response. -/
theorem proxy_stale_generation_discarded {U : Type} :
    (∀ (a : Attempt U) (b : Bool) (o : ProxyOutcome U), attemptStep a b = .done o →
        a.validAfterLogin = true ∧
        ∀ (d : LoginData) (r : SynologyResponse U),
          a.login = .inr (.success d) → a.call d = .ok r → a.validAfterCall = true)
  ∧ (∀ (a : Attempt U) (b : Bool), a.validAfterLogin = false →
        attemptStep a b = .retryGeneration)
  ∧ (∀ (a : Attempt U) (b : Bool) (d : LoginData) (r : SynologyResponse U),
        a.validAfterLogin = true → a.login = .inr (.success d) → a.call d = .ok r →
        a.validAfterCall = false → attemptStep a b = .retryGeneration)
  ∧ (∀ (a : Attempt U) (rest : List (Attempt U)) (b : Bool),
        attemptStep a b = .retryGeneration →
        (runProxy (a :: rest) b).1 = (runProxy rest true).1) := by
  refine ⟨?_, ?_, ?_, ?_⟩
  · intro a b o h
    cases hv : a.validAfterLogin with
    | false => simp [attemptStep, hv] at h
    | true =>
      refine ⟨rfl, ?_⟩
      intro d r hl hc
      cases hvc : a.validAfterCall with
      | true => rfl
      | false => simp [attemptStep, hv, hl, hc, hvc] at h
  · intro a b hv
    simp [attemptStep, hv]
  · intro a b d r hv hl hc hvc
    simp [attemptStep, hv, hl, hc, hvc]
  · intro a rest b h
    simp [runProxy, h]

/-- Concrete instance of C2 on `staleAttemptExample`. -/
theorem proxy_stale_generation_discarded_witness :
    attemptStep staleAttemptExample true = .retryGeneration ∧
    (runProxy [staleAttemptExample] true).1 = none :=
  ⟨proxy_stale_generation_discarded.2.1 staleAttemptExample true rfl, rfl⟩

lemma settingsDiffer_iff (a c : ApiClientSettings) : settingsDiffer a c = true ↔ a ≠ c := by
  cases a
  cases c
  simp only [settingsDiffer, Bool.or_eq_true, bne_iff_ne, ne_eq, ApiClientSettings.mk.injEq,
    not_and]
  tauto

lemma iterateMaybeLogin_cached (f : Nat) :
    ∀ (n : Nat) (s : ClientState), s.sidPromise = some f →
      iterateMaybeLogin s n = (List.replicate n (.futureRef f), s, []) := by
  intro n
  induction n with
  | zero =>
    intro s hs
    rfl
  | succ m ih =>
    intro s hs
    have hm : maybeLogin s = (.futureRef f, s, []) := by
      unfold maybeLogin
      rw [hs]
    simp [iterateMaybeLogin, hm, ih s hs, List.replicate]

lemma maybeLogout_state
    (resolve : Nat → Except JsError (SynologyResponse LoginData))
    (logoutResult : Except JsError (SynologyResponse Unit)) (s : ClientState) :
    (maybeLogout resolve logoutResult s).2.1 = { s with sidPromise := none } := by
  unfold maybeLogout
  cases hsp : s.sidPromise with
  | none => rfl
  | some futureId =>
    cases hconf : isFullyConfigured s.settings with
    | false => simp [hconf]
    | true =>
      cases hres : resolve futureId with
      | error e => simp [hconf, hres]
      | ok r =>
        cases r with
        | success d =>
          cases logoutResult with
          | ok lr => simp [hconf, hres]
          | error e => simp [hconf, hres]
        | failure code => simp [hconf, hres]

lemma maybeLogout_one_attempt
    (resolve : Nat → Except JsError (SynologyResponse LoginData))
    (logoutResult : Except JsError (SynologyResponse Unit)) (s : ClientState) :
    ((maybeLogout resolve logoutResult s).2.2.filter isLogoutAttempt).length = 1 := by
  unfold maybeLogout
  cases hsp : s.sidPromise with
  | none => simp [isLogoutAttempt]
  | some futureId =>
    cases hconf : isFullyConfigured s.settings with
    | false => simp [hconf, isLogoutAttempt]
    | true =>
      cases hres : resolve futureId with
      | error e => simp [hconf, hres, isLogoutAttempt]
      | ok r =>
        cases r with
        | success d =>
          cases logoutResult with
          | ok lr => simp [hconf, hres, isLogoutAttempt]
          | error e => simp [hconf, hres, isLogoutAttempt]
        | failure code => simp [hconf, hres, isLogoutAttempt]

lemma maybeLogout_no_notify
    (resolve : Nat → Except JsError (SynologyResponse LoginData))
    (logoutResult : Except JsError (SynologyResponse Unit)) (s : ClientState) (l : Nat) :
    ClientEvent.notifyListener l ∉ (maybeLogout resolve logoutResult s).2.2 := by
  unfold maybeLogout
  cases hsp : s.sidPromise with
  | none => simp
  | some futureId =>
    cases hconf : isFullyConfigured s.settings with
    | false => simp [hconf]
    | true =>
      cases hres : resolve futureId with
      | error e => simp [hconf, hres]
      | ok r =>
        cases r with
        | success d =>
          cases logoutResult with
          | ok lr => simp [hconf, hres]
          | error e => simp [hconf, hres]
        | failure code => simp [hconf, hres]

/-- **C3.** While the settings are fully populated, `N ≥ 1` invocations of
`maybeLogin` mint at most one login future: with no cached future, exactly the
first invocation issues the capability-query + login network sequence and all
`N` invocations hand back the very future it mints; with a cached future, no
network call at all is issued and all `N` invocations hand back that future. -/
theorem maybeLogin_at_most_one_network_login (s : ClientState) (n : Nat)
    (hconf : isFullyConfigured s.settings = true) (hn : 1 ≤ n) :
    (s.sidPromise = none →
      iterateMaybeLogin s n =
        (List.replicate n (.futureRef s.loginCalls),
         { s with sidPromise := some s.loginCalls, loginCalls := s.loginCalls + 1 },
         [.loginNetworkCall s.loginCalls]))
  ∧ ∀ f, s.sidPromise = some f →
      iterateMaybeLogin s n = (List.replicate n (.futureRef f), s, []) := by
  constructor
  · intro hnone
    cases n with
    | zero => exact absurd hn (by norm_num)
    | succ m =>
      have hm : maybeLogin s =
          (.futureRef s.loginCalls,
           { s with sidPromise := some s.loginCalls, loginCalls := s.loginCalls + 1 },
           [.loginNetworkCall s.loginCalls]) := by
        unfold maybeLogin
        rw [hnone, hconf]
        rfl
      have hcached := iterateMaybeLogin_cached s.loginCalls m
        { s with sidPromise := some s.loginCalls, loginCalls := s.loginCalls + 1 } rfl
      simp [iterateMaybeLogin, hm, hcached, List.replicate]
  · intro f hf
    exact iterateMaybeLogin_cached f n s hf

/-- Concrete instance of C3: three back-to-back `maybeLogin` calls on a fresh
fully-configured client mint exactly one login network sequence. -/
theorem maybeLogin_at_most_one_network_login_witness :
    iterateMaybeLogin clientStateExample 3 =
      (List.replicate 3 (.futureRef 0),
       { clientStateExample with sidPromise := some 0, loginCalls := 1 },
       [.loginNetworkCall 0]) :=
  (maybeLogin_at_most_one_network_login clientStateExample 3 rfl (by norm_num)).1 rfl

/-- **C4.** `updateSettings` compares field-wise over
`{baseUrl, account, passwd, session}` (the comparison succeeds exactly on
record equality): on equality it returns `false` with no state change and no
events; on any difference it returns `true`, bumps the generation exactly
once, replaces the settings wholesale, and triggers exactly one best-effort
logout, however many fields changed. -/
theorem updateSettings_fieldwise
    (resolve : Nat → Except JsError (SynologyResponse LoginData))
    (logoutResult : Except JsError (SynologyResponse Unit))
    (s : ClientState) (settings : ApiClientSettings) :
    (settingsDiffer settings s.settings = true ↔ settings ≠ s.settings)
  ∧ (settingsDiffer settings s.settings = false →
      updateSettings resolve logoutResult s settings = (false, s, []))
  ∧ (settingsDiffer settings s.settings = true →
      (updateSettings resolve logoutResult s settings).1 = true ∧
      (updateSettings resolve logoutResult s settings).2.1.settingsVersion =
        s.settingsVersion + 1 ∧
      (updateSettings resolve logoutResult s settings).2.1.settings = settings ∧
      ((updateSettings resolve logoutResult s settings).2.2.filter isLogoutAttempt).length
        = 1) := by
  refine ⟨settingsDiffer_iff settings s.settings, ?_, ?_⟩
  · intro hdiff
    simp [updateSettings, hdiff]
  · intro hdiff
    refine ⟨by simp [updateSettings, hdiff], ?_, ?_, ?_⟩
    · simp [updateSettings, hdiff, maybeLogout_state]
    · simp [updateSettings, hdiff, maybeLogout_state]
    · simp only [updateSettings, hdiff, if_true]
      exact maybeLogout_one_attempt resolve logoutResult _

/-- Concrete instance of C4: a one-field change is accepted, bumps the
generation once, and fires exactly one best-effort logout. -/
theorem updateSettings_fieldwise_witness :
    settingsDiffer changedSettingsExample clientStateExample.settings = true ∧
    (updateSettings resolveExample logoutResultExample clientStateExample
      changedSettingsExample).1 = true ∧
    ((updateSettings resolveExample logoutResultExample clientStateExample
      changedSettingsExample).2.2.filter isLogoutAttempt).length = 1 := by
  have h := (updateSettings_fieldwise resolveExample logoutResultExample clientStateExample
    changedSettingsExample).2.2 rfl
  exact ⟨rfl, h.1, h.2.2.2⟩

/-- **C5 (violated by the code).** `updateSettings` never emits a listener
notification: the source pushes listeners onto `onSettingsChangeListeners` and
filters them out on unsubscribe, but no code path ever invokes them — in
particular an accepted settings change with a registered listener produces
only the logout-attempt event. -/
theorem updateSettings_never_notifies_listeners :
    (∀ (resolve : Nat → Except JsError (SynologyResponse LoginData))
        (logoutResult : Except JsError (SynologyResponse Unit))
        (s : ClientState) (settings : ApiClientSettings) (l : Nat),
        ClientEvent.notifyListener l ∉ (updateSettings resolve logoutResult s settings).2.2)
  ∧ (updateSettings resolveExample logoutResultExample listenerClientExample
      changedSettingsExample).1 = true
  ∧ listenerClientExample.onSettingsChangeListeners = [0]
  ∧ (updateSettings resolveExample logoutResultExample listenerClientExample
      changedSettingsExample).2.2 = [.logoutAttempt] := by
  refine ⟨?_, rfl, rfl, rfl⟩
  intro resolve logoutResult s settings l
  cases hdiff : settingsDiffer settings s.settings with
  | false => simp [updateSettings, hdiff]
  | true =>
    simp only [updateSettings, hdiff, if_true]
    exact maybeLogout_no_notify resolve logoutResult _ l

/-- **C10.** `maybeLogout` clears the cached login future unconditionally —
whatever its outcome — and, when a future is cached but the settings are not
fully populated, it returns the `missing-config` connection failure (not
`'not-logged-in'`, not a logout response) without issuing any logout network
call. -/
theorem maybeLogout_always_clears_future
    (resolve : Nat → Except JsError (SynologyResponse LoginData))
    (logoutResult : Except JsError (SynologyResponse Unit)) (s : ClientState) :
    ((maybeLogout resolve logoutResult s).2.1.sidPromise = none)
  ∧ (∀ f, s.sidPromise = some f → isFullyConfigured s.settings = false →
      (maybeLogout resolve logoutResult s).1 = .connFailure .missingConfig ∧
      ∀ sid, ClientEvent.logoutNetworkCall sid ∉ (maybeLogout resolve logoutResult s).2.2) := by
  constructor
  · rw [maybeLogout_state]
  · intro f hf hconf
    constructor
    · simp [maybeLogout, hf, hconf]
    · intro sid
      simp [maybeLogout, hf, hconf]

/-- Concrete instance of C10 on `unconfiguredLoggedInExample`. -/
theorem maybeLogout_always_clears_future_witness :
    (maybeLogout resolveExample logoutResultExample unconfiguredLoggedInExample).1 =
      .connFailure .missingConfig ∧
    (maybeLogout resolveExample logoutResultExample unconfiguredLoggedInExample).2.1.sidPromise
      = none := by
  have h := maybeLogout_always_clears_future resolveExample logoutResultExample
    unconfiguredLoggedInExample
  exact ⟨(h.2 0 rfl rfl).1, h.1⟩

/-! ## Candidate generation and ordering -/

lemma getElem?_append_add (l1 l2 : List ConnectionInfo) (n : Nat) :
    (l1 ++ l2)[l1.length + n]? = l2[n]? := by
  rw [List.getElem?_append_right (Nat.le_add_right _ _)]
  simp

lemma getElem?_append_lt (l1 l2 : List ConnectionInfo) (i : Nat) (h : i < l1.length) :
    (l1 ++ l2)[i]? = l1[i]? := by
  rw [List.getElem?_append]
  simp [h]

lemma formatCandidates_apply (isIpv4 isIpv6 : String → Bool) (c : Candidates)
    (t : ConnectionType) :
    formatCandidates isIpv4 isIpv6 c t = (c t).map (formatHostname isIpv4 isIpv6) := by
  cases t <;> rfl

lemma formattedConnections_eq (c : Candidates) :
    formattedConnections c =
      c .LAN_IPV4 ++ (c .LAN_IPV6 ++ (c .FQDN ++ (c .DDNS ++
        (c .WAN_IPV6 ++ (c .WAN_IPV4 ++ c .TUN))))) := by
  simp [formattedConnections, PREFERRED_CONNECTION_ORDERING]

lemma formattedConnections_get (c : Candidates) (t : ConnectionType) (i : Nat)
    (h : i < (c t).length) :
    (formattedConnections c)[groupOffset c t + i]? = (c t)[i]? := by
  rw [formattedConnections_eq]
  cases t with
  | LAN_IPV4 =>
    have hoff : groupOffset c .LAN_IPV4 = 0 := rfl
    rw [hoff, Nat.zero_add]
    exact getElem?_append_lt _ _ i h
  | LAN_IPV6 =>
    have hoff : groupOffset c .LAN_IPV6 + i = (c .LAN_IPV4).length + i := rfl
    rw [hoff, getElem?_append_add]
    exact getElem?_append_lt _ _ i h
  | FQDN =>
    have hoff : groupOffset c .FQDN + i =
        (c .LAN_IPV4).length + ((c .LAN_IPV6).length + i) := by
      simp only [groupOffset]
      omega
    rw [hoff, getElem?_append_add, getElem?_append_add]
    exact getElem?_append_lt _ _ i h
  | DDNS =>
    have hoff : groupOffset c .DDNS + i =
        (c .LAN_IPV4).length + ((c .LAN_IPV6).length + ((c .FQDN).length + i)) := by
      simp only [groupOffset]
      omega
    rw [hoff, getElem?_append_add, getElem?_append_add, getElem?_append_add]
    exact getElem?_append_lt _ _ i h
  | WAN_IPV6 =>
    have hoff : groupOffset c .WAN_IPV6 + i =
        (c .LAN_IPV4).length + ((c .LAN_IPV6).length + ((c .FQDN).length +
          ((c .DDNS).length + i))) := by
      simp only [groupOffset]
      omega
    rw [hoff, getElem?_append_add, getElem?_append_add, getElem?_append_add,
      getElem?_append_add]
    exact getElem?_append_lt _ _ i h
  | WAN_IPV4 =>
    have hoff : groupOffset c .WAN_IPV4 + i =
        (c .LAN_IPV4).length + ((c .LAN_IPV6).length + ((c .FQDN).length +
          ((c .DDNS).length + ((c .WAN_IPV6).length + i)))) := by
      simp only [groupOffset]
      omega
    rw [hoff, getElem?_append_add, getElem?_append_add, getElem?_append_add,
      getElem?_append_add, getElem?_append_add]
    exact getElem?_append_lt _ _ i h
  | TUN =>
    have hoff : groupOffset c .TUN + i =
        (c .LAN_IPV4).length + ((c .LAN_IPV6).length + ((c .FQDN).length +
          ((c .DDNS).length + ((c .WAN_IPV6).length + ((c .WAN_IPV4).length + i))))) := by
      simp only [groupOffset]
      omega
    rw [hoff, getElem?_append_add, getElem?_append_add, getElem?_append_add,
      getElem?_append_add, getElem?_append_add, getElem?_append_add]

/-- **C7.** The probe sequence built by `tryResolveFromControlHost` from the
generated candidates is exactly the concatenation of the per-type groups in
the fixed order `LAN_IPV4, LAN_IPV6, FQDN, DDNS, WAN_IPV6, WAN_IPV4, TUN`:
each group occupies one contiguous block, at the offset accumulated from the
preceding groups, preserving its internal (insertion) order. -/
theorem probe_sequence_ordering (isPrivate isLoopback isIpv4 isIpv6 : String → Bool)
    (quickConnectId : String) (defaultPort : Int) (info : QuickConnectServerInfo)
    (tunnel : QuickConnectTunnelRequest) :
    ∀ c : Candidates,
      c = generateConnectionCandidates isPrivate isLoopback isIpv4 isIpv6 quickConnectId
        defaultPort info tunnel →
      (formattedConnections c =
        c .LAN_IPV4 ++ (c .LAN_IPV6 ++ (c .FQDN ++ (c .DDNS ++
          (c .WAN_IPV6 ++ (c .WAN_IPV4 ++ c .TUN)))))) ∧
      ∀ (t : ConnectionType) (i : Nat), i < (c t).length →
        (formattedConnections c)[groupOffset c t + i]? = (c t)[i]? := by
  intro c _
  exact ⟨formattedConnections_eq c, fun t i h => formattedConnections_get c t i h⟩

/-- Concrete instance of C7 on `orderingCandidatesExample`: the DDNS group
(here one candidate) sits at its accumulated offset in the probe sequence. -/
theorem probe_sequence_ordering_witness :
    (formattedConnections orderingCandidatesExample)[groupOffset
        orderingCandidatesExample ConnectionType.DDNS + 0]? =
      (orderingCandidatesExample ConnectionType.DDNS)[0]? :=
  (probe_sequence_ordering (fun str => str == "10.0.0.1") (fun _ => false)
      (fun _ => false) (fun _ => false) "qcid" 443 infoOrderingExample .include
      orderingCandidatesExample rfl).2 .DDNS 0
    (by rw [show orderingCandidatesExample .DDNS =
        [{ hostname := "example.com", port := 5000 }] from rfl]; simp)

/-! ## Preservation of candidate groups -/

lemma pushCandidate_ne (c : Candidates) (t : ConnectionType) (x : ConnectionInfo)
    (t' : ConnectionType) (h : t' ≠ t) : pushCandidate c t x t' = c t' := by
  simp [pushCandidate, h]

lemma addWithPort_ne (port : Int) (c : Candidates) (t : ConnectionType) (hostname : String)
    (t' : ConnectionType) (h : t' ≠ t) : addWithPort port c t hostname t' = c t' :=
  pushCandidate_ne c t _ t' h

lemma addWithExtPort_ne (extPort : Option Int) (c : Candidates) (t : ConnectionType)
    (hostname : String) (t' : ConnectionType) (h : t' ≠ t) :
    addWithExtPort extPort c t hostname t' = c t' := by
  cases extPort with
  | none => rfl
  | some e =>
    show (if e ≠ 0 then pushCandidate c t { hostname := hostname, port := e } else c) t' = c t'
    by_cases he : e ≠ 0
    · rw [if_pos he]
      exact pushCandidate_ne c t _ t' h
    · rw [if_neg he]

lemma addIpv6Candidates_preserve (port : Int) (extPort : Option Int) (c : Candidates)
    (v6 : Ipv6Interface) (t' : ConnectionType)
    (h6l : t' ≠ .LAN_IPV6) (h6w : t' ≠ .WAN_IPV6) :
    addIpv6Candidates port extPort c v6 t' = c t' := by
  unfold addIpv6Candidates
  cases hv : v6.address with
  | none => rfl
  | some addr =>
    show (if addr ≠ "" then
        addWithExtPort extPort
          (addWithPort port c (if v6.scope = some "link" then .LAN_IPV6 else .WAN_IPV6) addr)
          .WAN_IPV6 addr
      else c) t' = c t'
    by_cases ha : addr ≠ ""
    · rw [if_pos ha, addWithExtPort_ne _ _ _ _ _ h6w]
      by_cases hs : v6.scope = some "link"
      · rw [if_pos hs]
        exact addWithPort_ne _ _ _ _ _ h6l
      · rw [if_neg hs]
        exact addWithPort_ne _ _ _ _ _ h6w
    · rw [if_neg ha]

lemma foldl_preserve {α : Type} (g : Candidates → α → Candidates) (t' : ConnectionType)
    (hg : ∀ (c : Candidates) (x : α), g c x t' = c t') :
    ∀ (l : List α) (c : Candidates), (l.foldl g c) t' = c t' := by
  intro l
  induction l with
  | nil => intro c; rfl
  | cons x xs ih =>
    intro c
    rw [List.foldl_cons, ih (g c x), hg c x]

lemma addInterfaceCandidates_preserve (ipv ilo : String → Bool) (port : Int)
    (extPort : Option Int) (c : Candidates) (iface : NetworkInterface)
    (t' : ConnectionType) (h6l : t' ≠ .LAN_IPV6) (h6w : t' ≠ .WAN_IPV6)
    (h4l : t' ≠ .LAN_IPV4) (h4w : t' ≠ .WAN_IPV4) :
    addInterfaceCandidates ipv ilo port extPort c iface t' = c t' := by
  unfold addInterfaceCandidates
  have hc1 : ∀ cc : Candidates,
      (match iface.ipv6 with
       | some v6s => v6s.foldl (addIpv6Candidates port extPort) cc
       | none => cc) t' = cc t' := by
    intro cc
    cases iface.ipv6 with
    | none => rfl
    | some v6s =>
      exact foldl_preserve _ t' (fun c x => addIpv6Candidates_preserve port extPort c x t' h6l h6w) v6s cc
  cases hip : iface.ip with
  | none => exact hc1 c
  | some ip =>
    show (if (ip ≠ "" && !ilo ip) = true then
        addWithExtPort extPort
          (addWithPort port
            (match iface.ipv6 with
             | some v6s => v6s.foldl (addIpv6Candidates port extPort) c
             | none => c)
            (if ipv ip then .LAN_IPV4 else .WAN_IPV4) ip)
          .WAN_IPV4 ip
      else
        (match iface.ipv6 with
         | some v6s => v6s.foldl (addIpv6Candidates port extPort) c
         | none => c)) t' =
      c t'
    by_cases hcond : (ip ≠ "" && !ilo ip) = true
    · rw [if_pos hcond, addWithExtPort_ne _ _ _ _ _ h4w]
      by_cases hpriv : ipv ip = true
      · rw [if_pos hpriv, addWithPort_ne _ _ _ _ _ h4l]
        exact hc1 c
      · rw [if_neg hpriv, addWithPort_ne _ _ _ _ _ h4w]
        exact hc1 c
    · rw [if_neg hcond]
      exact hc1 c

lemma addDdnsCandidates_preserve (port : Int) (extPort : Option Int)
    (info : QuickConnectServerInfo) (c : Candidates) (t' : ConnectionType)
    (h : t' ≠ .DDNS) : addDdnsCandidates port extPort info c t' = c t' := by
  unfold addDdnsCandidates
  cases info.server.ddns with
  | none => rfl
  | some ddns =>
    show (if (ddns ≠ "" && ddns ≠ "NULL") = true then
        addWithExtPort extPort (addWithPort port c .DDNS ddns) .DDNS ddns
      else c) t' = c t'
    by_cases hc : (ddns ≠ "" && ddns ≠ "NULL") = true
    · rw [if_pos hc, addWithExtPort_ne _ _ _ _ _ h, addWithPort_ne _ _ _ _ _ h]
    · rw [if_neg hc]

lemma addFqdnCandidates_preserve (port : Int) (extPort : Option Int)
    (info : QuickConnectServerInfo) (c : Candidates) (t' : ConnectionType)
    (h : t' ≠ .FQDN) : addFqdnCandidates port extPort info c t' = c t' := by
  unfold addFqdnCandidates
  by_cases hc : (info.server.fqdn ≠ "" && info.server.fqdn ≠ "NULL") = true
  · rw [if_pos hc, addWithExtPort_ne _ _ _ _ _ h, addWithPort_ne _ _ _ _ _ h]
  · rw [if_neg hc]

lemma addExternalIpCandidates_preserve (port : Int) (extPort : Option Int)
    (info : QuickConnectServerInfo) (c : Candidates) (t' : ConnectionType)
    (h : t' ≠ .LAN_IPV4) : addExternalIpCandidates port extPort info c t' = c t' := by
  unfold addExternalIpCandidates
  cases hx : info.server.external with
  | none => rfl
  | some ext =>
    show (match ext.ip with
      | some ip =>
        if ip ≠ "" then
          addWithExtPort extPort (addWithPort port c .LAN_IPV4 ip) .LAN_IPV4 ip
        else c
      | none => c) t' = c t'
    cases hip : ext.ip with
    | none => rfl
    | some ip =>
      show (if ip ≠ "" then
          addWithExtPort extPort (addWithPort port c .LAN_IPV4 ip) .LAN_IPV4 ip
        else c) t' = c t'
      by_cases hc : ip ≠ ""
      · rw [if_pos hc, addWithExtPort_ne _ _ _ _ _ h, addWithPort_ne _ _ _ _ _ h]
      · rw [if_neg hc]

lemma addDirectCandidates_tun (ipv ilo : String → Bool) (port : Int)
    (extPort : Option Int) (info : QuickConnectServerInfo) (c : Candidates) :
    addDirectCandidates ipv ilo port extPort info c .TUN = c .TUN := by
  unfold addDirectCandidates
  rw [addExternalIpCandidates_preserve _ _ _ _ _ (by decide),
    addFqdnCandidates_preserve _ _ _ _ _ (by decide),
    addDdnsCandidates_preserve _ _ _ _ _ (by decide)]
  exact foldl_preserve _ _ (fun cc x => addInterfaceCandidates_preserve ipv ilo port extPort
    cc x .TUN (by decide) (by decide) (by decide) (by decide)) _ c

lemma directCandidatesStage_tun (ipv ilo : String → Bool)
    (info : QuickConnectServerInfo) (tunnel : QuickConnectTunnelRequest) :
    directCandidatesStage ipv ilo info tunnel .TUN = [] := by
  unfold directCandidatesStage
  cases hp : coerceNum (servicePort info) with
  | none => rfl
  | some port =>
    show (if tunnel = .include ∨ tunnel = .exclude then
        addDirectCandidates ipv ilo port
          (if shouldCheckExtPort (serviceExtPort info) port
            then coerceNum (serviceExtPort info) else none)
          info emptyCandidates
      else emptyCandidates) .TUN = []
    by_cases hmode : tunnel = .include ∨ tunnel = .exclude
    · rw [if_pos hmode, addDirectCandidates_tun]
      rfl
    · rw [if_neg hmode]
      rfl

lemma directCandidatesStage_require (ipv ilo : String → Bool)
    (info : QuickConnectServerInfo) (t : ConnectionType) :
    directCandidatesStage ipv ilo info .require t = [] := by
  unfold directCandidatesStage
  cases hp : coerceNum (servicePort info) with
  | none => rfl
  | some port =>
    show (if QuickConnectTunnelRequest.require = .include ∨
          QuickConnectTunnelRequest.require = .exclude then
        addDirectCandidates ipv ilo port
          (if shouldCheckExtPort (serviceExtPort info) port
            then coerceNum (serviceExtPort info) else none)
          info emptyCandidates
      else emptyCandidates) t = []
    rw [if_neg (by simp)]
    rfl

lemma tunnelCandidatesStage_ne_tun (qcid : String) (dp : Int)
    (info : QuickConnectServerInfo) (tunnel : QuickConnectTunnelRequest)
    (c : Candidates) (t : ConnectionType) (h : t ≠ .TUN) :
    tunnelCandidatesStage qcid dp info tunnel c t = c t := by
  unfold tunnelCandidatesStage
  by_cases hcond : (hasTunnel info && (tunnel = .require ∨ tunnel = .include)) = true
  · rw [if_pos hcond]
    exact pushCandidate_ne _ _ _ _ h
  · rw [if_neg hcond]

lemma tunnelCandidatesStage_tun (qcid : String) (dp : Int)
    (info : QuickConnectServerInfo) (tunnel : QuickConnectTunnelRequest)
    (c : Candidates) :
    tunnelCandidatesStage qcid dp info tunnel c .TUN =
      if hasTunnel info && (tunnel = .require ∨ tunnel = .include) then
        c .TUN ++
          [⟨qcid ++ "." ++ (info.env.relay_region).getD "" ++ ".quickconnect.to", dp⟩]
      else c .TUN := by
  unfold tunnelCandidatesStage
  by_cases hcond : (hasTunnel info && (tunnel = .require ∨ tunnel = .include)) = true
  · rw [if_pos hcond, if_pos hcond]
    simp [pushCandidate]
  · rw [if_neg hcond, if_neg hcond]

lemma generateConnectionCandidates_tun (ipv ilo i4 i6 : String → Bool) (qcid : String)
    (dp : Int) (info : QuickConnectServerInfo) (tunnel : QuickConnectTunnelRequest) :
    generateConnectionCandidates ipv ilo i4 i6 qcid dp info tunnel .TUN =
      if hasTunnel info && (tunnel = .require ∨ tunnel = .include) then
        [formatHostname i4 i6
          ⟨qcid ++ "." ++ (info.env.relay_region).getD "" ++ ".quickconnect.to", dp⟩]
      else [] := by
  unfold generateConnectionCandidates
  rw [formatCandidates_apply, tunnelCandidatesStage_tun, directCandidatesStage_tun]
  by_cases hcond : (hasTunnel info && (tunnel = .require ∨ tunnel = .include)) = true
  · rw [if_pos hcond, if_pos hcond]
    rfl
  · rw [if_neg hcond, if_neg hcond]
    rfl

lemma generateConnectionCandidates_require (ipv ilo i4 i6 : String → Bool) (qcid : String)
    (dp : Int) (info : QuickConnectServerInfo) (t : ConnectionType) (h : t ≠ .TUN) :
    generateConnectionCandidates ipv ilo i4 i6 qcid dp info .require t = [] := by
  unfold generateConnectionCandidates
  rw [formatCandidates_apply, tunnelCandidatesStage_ne_tun _ _ _ _ _ _ h,
    directCandidatesStage_require]
  rfl

/-- **C8.** `generateConnectionCandidates` emits a TUN candidate exactly when
the server advertises both `relay_ip` and `relay_port` (`hasTunnel`) and the
tunnel mode is `require` or `include`; direct (non-TUN) candidates appear only
when the mode is `include` or `exclude`; in particular mode `require` leaves
every non-TUN group empty. -/
theorem tunnel_candidate_policy (isPrivate isLoopback isIpv4 isIpv6 : String → Bool)
    (quickConnectId : String) (defaultPort : Int) (info : QuickConnectServerInfo)
    (tunnel : QuickConnectTunnelRequest) :
    (generateConnectionCandidates isPrivate isLoopback isIpv4 isIpv6 quickConnectId
        defaultPort info tunnel .TUN ≠ [] ↔
      hasTunnel info = true ∧ (tunnel = .require ∨ tunnel = .include))
  ∧ (tunnel = .require → ∀ t : ConnectionType, t ≠ .TUN →
      generateConnectionCandidates isPrivate isLoopback isIpv4 isIpv6 quickConnectId
        defaultPort info tunnel t = [])
  ∧ ((∃ t : ConnectionType, t ≠ .TUN ∧
        generateConnectionCandidates isPrivate isLoopback isIpv4 isIpv6 quickConnectId
          defaultPort info tunnel t ≠ []) →
      tunnel = .include ∨ tunnel = .exclude) := by
  refine ⟨?_, ?_, ?_⟩
  · rw [generateConnectionCandidates_tun]
    by_cases hcond : (hasTunnel info && (tunnel = .require ∨ tunnel = .include)) = true
    · rw [if_pos hcond]
      simp only [Bool.and_eq_true, decide_eq_true_eq] at hcond
      simp [hcond.1, hcond.2]
    · rw [if_neg hcond]
      simp only [Bool.and_eq_true, decide_eq_true_eq] at hcond
      simp only [ne_eq, not_true_eq_false, false_iff]
      intro hcontra
      exact hcond ⟨hcontra.1, hcontra.2⟩
  · intro htun t ht
    subst htun
    exact generateConnectionCandidates_require isPrivate isLoopback isIpv4 isIpv6
      quickConnectId defaultPort info t ht
  · rintro ⟨t, ht, hne⟩
    cases tunnel
    · exact Or.inr rfl
    · exact Or.inl rfl
    · exact absurd (generateConnectionCandidates_require isPrivate isLoopback isIpv4 isIpv6
        quickConnectId defaultPort info t ht) hne

/-- Concrete instance of C8: with `infoOrderingExample` (which advertises a
relay) and mode `require`, the TUN group is non-empty and the LAN_IPV4 group
is empty. -/
theorem tunnel_candidate_policy_witness :
    generateConnectionCandidates (fun _ => false) (fun _ => false) (fun _ => false)
      (fun _ => false) "qcid" 443 infoOrderingExample .require .TUN ≠ [] ∧
    generateConnectionCandidates (fun _ => false) (fun _ => false) (fun _ => false)
      (fun _ => false) "qcid" 443 infoOrderingExample .require .LAN_IPV4 = [] := by
  have h := tunnel_candidate_policy (fun _ => false) (fun _ => false) (fun _ => false)
    (fun _ => false) "qcid" 443 infoOrderingExample .require
  exact ⟨h.1.mpr ⟨rfl, Or.inl rfl⟩, h.2.1 rfl .LAN_IPV4 (by decide)⟩

lemma series_none_ok_iff {T U E : Type} (values : List T) (f : T → Except E U) (u : U) :
    series values f none = .ok u ↔ ∃ i, firstFulfilled values f i u := by
  cases values with
  | nil =>
    constructor
    · intro h
      exact Except.noConfusion h
    · rintro ⟨i, ⟨v, hv, -⟩, -⟩
      simp at hv
  | cons v rest => exact seriesIterate_ok_iff f rest v u

/-- **C9.** A candidate's liveness probe is treated as successful — and that
candidate resolved — exactly when the ping-pong response fulfills with
`success = true` and an `ezid` equal to the supplied hash of the server id;
consequently, on a valid server info, `tryResolveFromControlHost` resolves
with `conn` exactly when `conn` is the first candidate of the ordered probe
sequence whose probe passes that criterion. -/
theorem probe_success_criterion (md5 : String → String)
    (isPrivate isLoopback isIpv4 isIpv6 : String → Bool)
    (tunnelResult : Except JsError (QuickConnectErrorResponse ⊕ QuickConnectServerInfo))
    (pingPongEnv : ConnectionInfo → Except JsError PingPongResponse)
    (quickConnectId : String) (protocol : Protocol) (tunnel : QuickConnectTunnelRequest)
    (info : QuickConnectServerInfo) (serverIdHash : String) :
    (∀ (connection c' : ConnectionInfo),
        probeConnection pingPongEnv serverIdHash connection = .ok c' ↔
          c' = connection ∧ ∃ r, pingPongEnv connection = .ok r ∧
            r.success = true ∧ r.ezid = some serverIdHash)
  ∧ (tunnelResult = .ok (.inr info) → isValidServerInfo info = true →
      ∀ conn : ConnectionInfo,
        tryResolveFromControlHost md5 isPrivate isLoopback isIpv4 isIpv6 tunnelResult
            pingPongEnv quickConnectId protocol tunnel = .ok conn ↔
          ∃ i, firstFulfilled
            (formattedConnections (generateConnectionCandidates isPrivate isLoopback
              isIpv4 isIpv6 quickConnectId (PROTOCOL_PORTS protocol) info tunnel))
            (probeConnection pingPongEnv (md5 ((info.server.serverID).getD ""))) i conn) := by
  constructor
  · intro connection c'
    unfold probeConnection
    cases hp : pingPongEnv connection with
    | error e => simp
    | ok r =>
      cases hsuc : r.success with
      | false => simp [hsuc]
      | true =>
        by_cases hez : r.ezid = some serverIdHash
        · simp [hsuc, hez]
          exact eq_comm
        · simp [hsuc, hez]
  · intro htr hvalid conn
    unfold tryResolveFromControlHost
    rw [htr]
    show resolveWithServerInfo md5 isPrivate isLoopback isIpv4 isIpv6 pingPongEnv
        quickConnectId protocol tunnel info = .ok conn ↔ _
    unfold resolveWithServerInfo
    rw [hvalid]
    show (match series
        (formattedConnections (generateConnectionCandidates isPrivate isLoopback isIpv4
          isIpv6 quickConnectId (PROTOCOL_PORTS protocol) info tunnel))
        (probeConnection pingPongEnv (md5 ((info.server.serverID).getD ""))) none with
      | .ok connection => Except.ok connection
      | .error e => Except.error (ResolveFailure.allProbesFailed e)) = .ok conn ↔ _
    cases hseries : series
        (formattedConnections (generateConnectionCandidates isPrivate isLoopback isIpv4
          isIpv6 quickConnectId (PROTOCOL_PORTS protocol) info tunnel))
        (probeConnection pingPongEnv (md5 ((info.server.serverID).getD ""))) none with
    | ok c =>
      constructor
      · intro h
        cases h
        exact (series_none_ok_iff _ _ _).mp hseries
      · intro hex
        have := (series_none_ok_iff _ _ conn).mpr hex
        rw [hseries] at this
        cases this
        rfl
    | error e =>
      constructor
      · intro h
        cases h
      · intro hex
        have := (series_none_ok_iff _ _ conn).mpr hex
        rw [hseries] at this
        cases this

/-- Concrete instance of C9: on `infoOrderingExample`, resolution returns the
first candidate of the probe sequence, which fulfills the success-and-ezid
criterion. -/
theorem probe_success_criterion_witness :
    ∃ i, firstFulfilled
      (formattedConnections (generateConnectionCandidates (fun _ => false) (fun _ => false)
        (fun _ => false) (fun _ => false) "qcid" (PROTOCOL_PORTS .https) infoOrderingExample
        .include))
      (probeConnection pingEnvExample
        (md5Example ((infoOrderingExample.server.serverID).getD ""))) i
      ⟨"9.9.9.9", 5000⟩ :=
  ((probe_success_criterion md5Example (fun _ => false) (fun _ => false) (fun _ => false)
      (fun _ => false) (.ok (.inr infoOrderingExample)) pingEnvExample "qcid" .https
      .include infoOrderingExample "SERVERID#md5").2 rfl rfl ⟨"9.9.9.9", 5000⟩).mp rfl

end Synology
